import Mathlib

/-!
Verification of the Excel-Art image-to-spreadsheet pipeline.

The development shallowly embeds the two Python script variants of the
repository (`script.py` and `scriptV2.py`): the color codec `rgb_to_hex`,
the pixel-grid extractor `get_pixel_colors`, the two workbook builders
`create_excel_with_colors` (naive, and style-deduplicating), and the
top-level driver `image_to_excel` of each variant, modelled as a pure
function from its external inputs (path existence, decoded image, the
interactive response, emitter success) to an outcome together with the
ordered trace of effectful steps it performs.
-/

namespace ExcelArt

/-- A pixel: the RGB channel triple returned by PIL's `getpixel`. -/
abbrev Pixel := Nat × Nat × Nat

/-- Python `str.lower`, character by character (ASCII case mapping). -/
def lowerStr (s : String) : String := String.mk (s.data.map Char.toLower)

/-- Python `str.strip`: drop whitespace from both ends. -/
def stripStr (s : String) : String :=
  String.mk (((s.data.dropWhile Char.isWhitespace).reverse.dropWhile Char.isWhitespace).reverse)

/-- Python `str.endswith`: the second string is a suffix of the first. -/
def endsWithStr (s p : String) : Bool :=
  decide (p.data.length ≤ s.data.length) &&
    decide (s.data.drop (s.data.length - p.data.length) = p.data)

/-- Uppercase hexadecimal digits of a number, most significant first:
Python's `X` format conversion. -/
def hexChars (n : Nat) : List Char := (Nat.toDigits 16 n).map Char.toUpper

/-- Python's `02X` format: the uppercase hex digits, left padded with zeros
to width at least two. -/
def format02X (n : Nat) : String :=
  String.mk (List.replicate (2 - (hexChars n).length) '0' ++ hexChars n)

/-- The scripts' `rgb_to_hex`: the Python format string concatenating the
`02X` renderings of the three channels in red-green-blue order. -/
def rgb_to_hex (rgb : Pixel) : String :=
  format02X rgb.1 ++ (format02X rgb.2.1 ++ format02X rgb.2.2)

/-- Numeric value of an uppercase hexadecimal digit character. -/
def hexVal (c : Char) : Nat := if 65 ≤ c.toNat then c.toNat - 55 else c.toNat - 48

/-- Modelled from the spec (round-trip direction of the codec contract, which
has no counterpart function in the source): parse a 6-character string as
three 2-digit hexadecimal fields. -/
def decodeHex6 (s : String) : Pixel :=
  match s.data with
  | [c1, c2, c3, c4, c5, c6] =>
      (16 * hexVal c1 + hexVal c2, 16 * hexVal c3 + hexVal c4, 16 * hexVal c5 + hexVal c6)
  | _ => (0, 0, 0)

/-- A decoded image: dimensions plus per-coordinate pixel access, the
interface `get_pixel_colors` consumes (`image.size`, `image.getpixel((x, y))`). -/
structure Image where
  width : Nat
  height : Nat
  px : Nat → Nat → Pixel

/-- The scripts' `get_pixel_colors`: row-major nested loops, `y` outer over
`range(height)`, `x` inner over `range(width)`, appending `getpixel((x, y))`;
returns the grid together with the width and height. -/
def get_pixel_colors (image : Image) : List (List Pixel) × Nat × Nat :=
  ((List.range image.height).map fun y => (List.range image.width).map fun x => image.px x y,
   image.width, image.height)

/-- The sequence of coordinates `(x, y)` visited by the scripts' nested
loops, in their order: `y` outer over `range(height)`, `x` inner over
`range(width)`. -/
def visitOrder (width height : Nat) : List (Nat × Nat) :=
  (List.range height).flatMap fun y => (List.range width).map fun x => (x, y)

/-- An openpyxl `PatternFill` as constructed by the scripts. -/
structure Fill where
  start_color : String
  end_color : String
  fill_type : String
deriving DecidableEq

/-- The fill both scripts construct for a hex color key:
`PatternFill(start_color=hex, end_color=hex, fill_type="solid")`. -/
def mkFill (hex : String) : Fill := ⟨hex, hex, "solid"⟩

/-- The populated workbook model.  Constructed fill objects are kept in
creation order and referenced from cells by index, so that two cells carry
the identical fill object exactly when their indices agree.  Column letters
are abstracted to column numbers. -/
structure Workbook where
  fills : List Fill
  cells : List ((Nat × Nat) × Nat)
  colWidths : List (Nat × ℚ)
  rowHeights : List (Nat × ℚ)
  calcManual : Bool

/-- Python dict lookup `cache[hex]` / membership `hex in cache`, on an
association list. -/
def findStyle : List (String × Nat) → String → Option Nat
  | [], _ => none
  | (k, j) :: rest, hex => if k = hex then some j else findStyle rest hex

/-- State of scriptV2's `fill_cache` together with the list of fill objects
constructed so far (in construction order; a cache entry holds the index of
its fill). -/
abbrev DedupState := List (String × Nat) × List Fill

/-- scriptV2's per-color resolution: `if hex_color not in fill_cache:
fill_cache[hex_color] = PatternFill(...)` followed by reading
`fill_cache[hex_color]`.  Returns the handle (index) of the fill for the key
and the updated state; a new fill object is constructed only on a cache miss. -/
def resolveStyle (st : DedupState) (hex : String) : Nat × DedupState :=
  match findStyle st.1 hex with
  | some i => (i, st)
  | none => (st.2.length, ((hex, st.2.length) :: st.1, st.2 ++ [mkFill hex]))

/-- Resolve a whole list of color keys in order, keeping only the state. -/
def dedupProcess (st : DedupState) (keys : List String) : DedupState :=
  keys.foldl (fun s k => (resolveStyle s k).2) st

/-- Grid access `pixel_colors[y][x]`. -/
def pixAt (grid : List (List Pixel)) (y x : Nat) : Pixel := (grid.getD y []).getD x (0, 0, 0)

/-- The per-coordinate data of the cell-filling loops of both scripts:
for each visited `(x, y)`, the 1-based target cell `(y + 1, x + 1)` and the
color key `rgb_to_hex(pixel_colors[y][x])`. -/
def cellKeys (grid : List (List Pixel)) (width height : Nat) : List ((Nat × Nat) × String) :=
  (visitOrder width height).map fun p => ((p.2 + 1, p.1 + 1), rgb_to_hex (pixAt grid p.2 p.1))

/-- One loop iteration of script.py's `create_excel_with_colors`: construct a
fresh `PatternFill` for the cell's color and assign it to the cell. -/
def v1Step (st : List Fill × List ((Nat × Nat) × Nat)) (p : (Nat × Nat) × String) :
    List Fill × List ((Nat × Nat) × Nat) :=
  (st.1 ++ [mkFill p.2], st.2 ++ [(p.1, st.1.length)])

/-- script.py's `create_excel_with_colors`: column widths 2, row heights 15,
one fresh fill object per cell, no calculation-mode change. -/
def create_excel_v1 (pixel_colors : List (List Pixel)) (width height : Nat) : Workbook :=
  let st := (cellKeys pixel_colors width height).foldl v1Step ([], [])
  { fills := st.1
    cells := st.2
    colWidths := (List.range width).map fun c => (c + 1, (2 : ℚ))
    rowHeights := (List.range height).map fun r => (r + 1, (15 : ℚ))
    calcManual := false }

/-- One loop iteration of scriptV2's `create_excel_with_colors`: resolve the
cell's color key through the fill cache and assign the resulting fill. -/
def v2Step (st : DedupState × List ((Nat × Nat) × Nat)) (p : (Nat × Nat) × String) :
    DedupState × List ((Nat × Nat) × Nat) :=
  ((resolveStyle st.1 p.2).2, st.2 ++ [(p.1, (resolveStyle st.1 p.2).1)])

/-- scriptV2's `create_excel_with_colors`: column widths 1.5, row heights 12,
fills deduplicated through `fill_cache`, manual calculation mode. -/
def create_excel_v2 (pixel_colors : List (List Pixel)) (width height : Nat) : Workbook :=
  let st := (cellKeys pixel_colors width height).foldl v2Step (([], []), [])
  { fills := st.1.2
    cells := st.2
    colWidths := (List.range width).map fun c => (c + 1, (1.5 : ℚ))
    rowHeights := (List.range height).map fun r => (r + 1, (12 : ℚ))
    calcManual := true }

/-- The cells of a workbook with each style handle dereferenced to the fill
object it denotes. -/
def cellFillsOf (fills : List Fill) (cells : List ((Nat × Nat) × Nat)) :
    List ((Nat × Nat) × Fill) :=
  cells.map fun p => (p.1, fills.getD p.2 (mkFill ""))

/-- The cells of a workbook with dereferenced fills. -/
def cellFills (wb : Workbook) : List ((Nat × Nat) × Fill) := cellFillsOf wb.fills wb.cells

/-- Invariant of the fill cache: every cached handle points at a constructed
fill, and that fill is the one built for the cached key. -/
def cacheOK (cache : List (String × Nat)) (fills : List Fill) : Prop :=
  ∀ hex i, findStyle cache hex = some i →
    i < fills.length ∧ fills.getD i (mkFill "") = mkFill hex

/-- Invariant of the cell list: every assigned handle points at a
constructed fill. -/
def cellsOK (cells : List ((Nat × Nat) × Nat)) (fills : List Fill) : Prop :=
  ∀ p ∈ cells, p.2 < fills.length

/-- The observable effectful steps of a driver run, in order. -/
inductive Event
  | load
  | extract
  | prompt
  | quantize
  | save
deriving DecidableEq

/-- How a driver run ended. -/
inductive Outcome
  | ok
  | notFound
  | badExtension
  | loadFailed
  | cancelled
  | saveFailed
deriving DecidableEq

/-- Result of a driver run: the returned boolean, the kind of ending, the
ordered trace of effectful steps, whether an output file was produced, and
the workbook that was written (if any). -/
structure Run where
  result : Bool
  outcome : Outcome
  events : List Event
  fileWritten : Bool
  saved? : Option Workbook

/-- The scripts' `valid_extensions` list. -/
def valid_extensions : List String := [".png", ".jpg", ".jpeg", ".PNG", ".JPG", ".JPEG"]

/-- The scripts' extension test:
`any(image_path.lower().endswith(ext) for ext in valid_extensions)`. -/
def validExtensionCheck (image_path : String) : Bool :=
  valid_extensions.any fun ext => endsWithStr (lowerStr image_path) ext

/-- Common tail of both drivers: build the workbook, then attempt
`workbook.save`, which either succeeds or is reported as a failure.  Whether
a partial file remains after a failed save is outside the model. -/
def finishRun (wb : Workbook) (evs : List Event) (saveOk : Bool) : Run :=
  if saveOk then ⟨true, .ok, evs ++ [.save], true, some wb⟩
  else ⟨false, .saveFailed, evs ++ [.save], false, none⟩

/-- script.py's `image_to_excel`, as a function of its external inputs:
whether the path exists, the path string, the decoder's result (`None` on
failure), the interactive response to the size prompt, and whether saving
succeeds.  The existence and extension checks precede loading; extraction
runs before the size guard; the guard prompts only above 10000 pixels and
cancels unless the lowered response is `"s"`. -/
def image_to_excel_v1 (pathExists : Bool) (image_path : String) (decoded : Option Image)
    (response : String) (saveOk : Bool) : Run :=
  if pathExists = false then ⟨false, .notFound, [], false, none⟩
  else if validExtensionCheck image_path = false then ⟨false, .badExtension, [], false, none⟩
  else
    match decoded with
    | none => ⟨false, .loadFailed, [.load], false, none⟩
    | some image =>
      if 10000 < (get_pixel_colors image).2.1 * (get_pixel_colors image).2.2 then
        if lowerStr response ≠ "s" then ⟨false, .cancelled, [.load, .extract, .prompt], false, none⟩
        else
          finishRun
            (create_excel_v1 (get_pixel_colors image).1 (get_pixel_colors image).2.1
              (get_pixel_colors image).2.2)
            [.load, .extract, .prompt] saveOk
      else
        finishRun
          (create_excel_v1 (get_pixel_colors image).1 (get_pixel_colors image).2.1
            (get_pixel_colors image).2.2)
          [.load, .extract] saveOk

/-- scriptV2's `image_to_excel`.  Differences from script.py: the size guard
runs before extraction, directly on the loaded image's dimensions; it is a
three-way choice on the stripped response (`"1"` quantizes via the external
`reduce_colors` collaborator, here the `quant` parameter, `"3"` cancels,
anything else proceeds unchanged); and the deduplicating workbook builder is
used. -/
def image_to_excel_v2 (pathExists : Bool) (image_path : String) (decoded : Option Image)
    (quant : Image → Image) (response : String) (saveOk : Bool) : Run :=
  if pathExists = false then ⟨false, .notFound, [], false, none⟩
  else if validExtensionCheck image_path = false then ⟨false, .badExtension, [], false, none⟩
  else
    match decoded with
    | none => ⟨false, .loadFailed, [.load], false, none⟩
    | some image =>
      if 10000 < image.width * image.height then
        if stripStr response = "1" then
          finishRun
            (create_excel_v2 (get_pixel_colors (quant image)).1
              (get_pixel_colors (quant image)).2.1 (get_pixel_colors (quant image)).2.2)
            [.load, .prompt, .quantize, .extract] saveOk
        else if stripStr response = "3" then ⟨false, .cancelled, [.load, .prompt], false, none⟩
        else
          finishRun
            (create_excel_v2 (get_pixel_colors image).1 (get_pixel_colors image).2.1
              (get_pixel_colors image).2.2)
            [.load, .prompt, .extract] saveOk
      else
        finishRun
          (create_excel_v2 (get_pixel_colors image).1 (get_pixel_colors image).2.1
            (get_pixel_colors image).2.2)
          [.load, .extract] saveOk

/-! ### List helper lemmas -/

theorem getD_append_lt {α : Type} (l l2 : List α) (d : α) :
    ∀ i, i < l.length → (l ++ l2).getD i d = l.getD i d := by
  induction l with
  | nil => intro i h; exact absurd h (Nat.not_lt_zero i)
  | cons a t ih =>
    intro i h
    cases i with
    | zero => rfl
    | succ n =>
      rw [List.cons_append, List.getD_cons_succ, List.getD_cons_succ]
      exact ih n (Nat.lt_of_succ_lt_succ h)

theorem getD_append_len {α : Type} (l : List α) (a d : α) :
    (l ++ [a]).getD l.length d = a := by
  induction l with
  | nil => rfl
  | cons b t ih => rw [List.cons_append, List.length_cons, List.getD_cons_succ]; exact ih

/-! ### Facts about the fill cache -/

theorem findStyle_eq_some_mem {cache : List (String × Nat)} {hex : String} {i : Nat}
    (h : findStyle cache hex = some i) : hex ∈ cache.map Prod.fst := by
  induction cache with
  | nil => exact absurd h (by simp [findStyle])
  | cons a t ih =>
    cases a with
    | mk k j =>
      rw [findStyle] at h
      by_cases hk : k = hex
      · simp [hk]
      · rw [if_neg hk] at h
        simp [ih h]

theorem findStyle_eq_none_not_mem {cache : List (String × Nat)} {hex : String}
    (h : findStyle cache hex = none) : hex ∉ cache.map Prod.fst := by
  induction cache with
  | nil => simp
  | cons a t ih =>
    cases a with
    | mk k j =>
      rw [findStyle] at h
      by_cases hk : k = hex
      · rw [if_pos hk] at h; exact absurd h (by simp)
      · rw [if_neg hk] at h
        simp only [List.map_cons, List.mem_cons]
        rintro (hh | hh)
        · exact hk hh.symm
        · exact ih h hh

theorem dedupProcess_cons (st : DedupState) (k : String) (ks : List String) :
    dedupProcess st (k :: ks) = dedupProcess (resolveStyle st k).2 ks := rfl

theorem dedup_keys (keys : List String) :
    ∀ cache fills,
      ((dedupProcess (cache, fills) keys).1.map Prod.fst).toFinset
        = (cache.map Prod.fst).toFinset ∪ keys.toFinset := by
  induction keys with
  | nil => intro cache fills; simp [dedupProcess]
  | cons k ks ih =>
    intro cache fills
    rw [dedupProcess_cons, resolveStyle]
    cases hfind : findStyle cache k with
    | some i =>
      have hk : k ∈ (cache.map Prod.fst).toFinset :=
        List.mem_toFinset.mpr (findStyle_eq_some_mem hfind)
      rw [ih cache fills, List.toFinset_cons, Finset.union_insert,
        Finset.insert_eq_self.mpr (Finset.mem_union_left _ hk)]
    | none =>
      rw [ih ((k, fills.length) :: cache) (fills ++ [mkFill k])]
      rw [List.map_cons, List.toFinset_cons, List.toFinset_cons,
        Finset.insert_union, Finset.union_insert]

theorem dedup_nodup (keys : List String) :
    ∀ cache fills, (cache.map Prod.fst).Nodup →
      ((dedupProcess (cache, fills) keys).1.map Prod.fst).Nodup := by
  induction keys with
  | nil => intro cache fills h; exact h
  | cons k ks ih =>
    intro cache fills h
    rw [dedupProcess_cons, resolveStyle]
    cases hfind : findStyle cache k with
    | some i => exact ih cache fills h
    | none =>
      refine ih ((k, fills.length) :: cache) (fills ++ [mkFill k]) ?_
      rw [List.map_cons]
      exact List.nodup_cons.mpr ⟨findStyle_eq_none_not_mem hfind, h⟩

theorem dedup_len (keys : List String) :
    ∀ cache fills, cache.length = fills.length →
      (dedupProcess (cache, fills) keys).1.length
        = (dedupProcess (cache, fills) keys).2.length := by
  induction keys with
  | nil => intro cache fills h; exact h
  | cons k ks ih =>
    intro cache fills h
    rw [dedupProcess_cons, resolveStyle]
    cases hfind : findStyle cache k with
    | some i => exact ih cache fills h
    | none =>
      refine ih ((k, fills.length) :: cache) (fills ++ [mkFill k]) ?_
      simp [h]

/-- Number of fill objects constructed after resolving a list of keys from an
empty cache: the number of distinct keys. -/
theorem dedup_count (keys : List String) :
    (dedupProcess ([], []) keys).2.length = keys.toFinset.card := by
  have hlen := dedup_len keys [] [] rfl
  have hkeys := dedup_keys keys [] []
  have hnd := dedup_nodup keys [] [] (by simp)
  rw [← hlen]
  have : ((dedupProcess ([], []) keys).1.map Prod.fst).toFinset = keys.toFinset := by
    rw [hkeys]; simp
  calc (dedupProcess ([], []) keys).1.length
      = ((dedupProcess ([], []) keys).1.map Prod.fst).length := (List.length_map _ _).symm
    _ = ((dedupProcess ([], []) keys).1.map Prod.fst).toFinset.card :=
        (List.toFinset_card_of_nodup hnd).symm
    _ = keys.toFinset.card := by rw [this]

/-- The dedup-state component of scriptV2's cell loop is exactly
`dedupProcess` on the color keys. -/
theorem v2_fold_dedup (l : List ((Nat × Nat) × String)) :
    ∀ (cf : DedupState) (cells : List ((Nat × Nat) × Nat)),
      (l.foldl v2Step (cf, cells)).1 = dedupProcess cf (l.map Prod.snd) := by
  induction l with
  | nil => intro cf cells; rfl
  | cons p t ih =>
    intro cf cells
    rw [List.foldl_cons, List.map_cons, dedupProcess_cons]
    exact ih (resolveStyle cf p.2).2 (cells ++ [(p.1, (resolveStyle cf p.2).1)])

/-- Claim C1: during one conversion run of the deduplicating variant, the
number of fill style objects ever constructed equals the number of distinct
color keys encountered in the pixel grid, and resolving the same color key a
second time returns the identical style handle (and constructs nothing: the
state is unchanged). -/
theorem claim_C1 :
    (∀ (pixel_colors : List (List Pixel)) (width height : Nat),
        (create_excel_v2 pixel_colors width height).fills.length
          = ((cellKeys pixel_colors width height).map Prod.snd).toFinset.card)
    ∧ (∀ (st : DedupState) (hex : String),
        resolveStyle (resolveStyle st hex).2 hex = resolveStyle st hex) := by
  constructor
  · intro pixel_colors width height
    show ((cellKeys pixel_colors width height).foldl v2Step (([], []), [])).1.2.length = _
    rw [v2_fold_dedup _ ([], []) []]
    exact dedup_count _
  · intro st hex
    cases hfind : findStyle st.1 hex with
    | some i => simp [resolveStyle, hfind]
    | none => simp [resolveStyle, hfind, findStyle]

/-! ### The color codec -/

set_option maxRecDepth 4000 in
theorem format02X_spec : ∀ n, n < 256 →
    (format02X n).data.length = 2
    ∧ ((format02X n).data.all fun c => "0123456789ABCDEF".data.contains c) = true
    ∧ 16 * hexVal ((format02X n).data.getD 0 '0') + hexVal ((format02X n).data.getD 1 '0') = n := by
  decide

theorem format02X_pair (n : Nat) (h : n < 256) :
    ∃ c1 c2, (format02X n).data = [c1, c2]
      ∧ ("0123456789ABCDEF".data.contains c1 && "0123456789ABCDEF".data.contains c2) = true
      ∧ 16 * hexVal c1 + hexVal c2 = n := by
  obtain ⟨h1, h2, h3⟩ := format02X_spec n h
  obtain ⟨c1, c2, hc⟩ := List.length_eq_two.mp h1
  rw [hc] at h2 h3
  simp only [List.getD_cons_zero, List.getD_cons_succ] at h3
  refine ⟨c1, c2, hc, ?_, h3⟩
  simpa [List.all_cons] using h2

theorem decodeHex6_eq (s : String) (c1 c2 c3 c4 c5 c6 : Char)
    (h : s.data = [c1, c2, c3, c4, c5, c6]) :
    decodeHex6 s
      = (16 * hexVal c1 + hexVal c2, 16 * hexVal c3 + hexVal c4, 16 * hexVal c5 + hexVal c6) := by
  unfold decodeHex6
  rw [h]

theorem rgb_to_hex_data (r g b : Nat) :
    (rgb_to_hex (r, g, b)).data
      = (format02X r).data ++ ((format02X g).data ++ (format02X b).data) := by
  rw [rgb_to_hex, String.data_append, String.data_append]

/-- Claim C2: for channels in [0, 255], `rgb_to_hex` returns a 6-character
string of uppercase hexadecimal digits, the concatenation of the three
two-digit zero-padded channel fields in red-green-blue order; parsing the
string back as three 2-digit hex fields recovers the channels exactly, and
consequently the encoding is injective on the 24-bit RGB space. -/
theorem claim_C2 (r g b : Nat) (hr : r ≤ 255) (hg : g ≤ 255) (hb : b ≤ 255) :
    (rgb_to_hex (r, g, b)).length = 6
    ∧ (rgb_to_hex (r, g, b)).data
        = (format02X r).data ++ ((format02X g).data ++ (format02X b).data)
    ∧ ((rgb_to_hex (r, g, b)).data.all fun c => "0123456789ABCDEF".data.contains c) = true
    ∧ decodeHex6 (rgb_to_hex (r, g, b)) = (r, g, b)
    ∧ (∀ r2 g2 b2 : Nat, r2 ≤ 255 → g2 ≤ 255 → b2 ≤ 255 →
        rgb_to_hex (r, g, b) = rgb_to_hex (r2, g2, b2) → r = r2 ∧ g = g2 ∧ b = b2) := by
  have roundTrip : ∀ x y z : Nat, x ≤ 255 → y ≤ 255 → z ≤ 255 →
      decodeHex6 (rgb_to_hex (x, y, z)) = (x, y, z) := by
    intro x y z hx hy hz
    obtain ⟨c1, c2, hxd, _, hxv⟩ := format02X_pair x (Nat.lt_succ_of_le hx)
    obtain ⟨c3, c4, hyd, _, hyv⟩ := format02X_pair y (Nat.lt_succ_of_le hy)
    obtain ⟨c5, c6, hzd, _, hzv⟩ := format02X_pair z (Nat.lt_succ_of_le hz)
    have hdata : (rgb_to_hex (x, y, z)).data = [c1, c2, c3, c4, c5, c6] := by
      rw [rgb_to_hex_data, hxd, hyd, hzd]; rfl
    rw [decodeHex6_eq _ c1 c2 c3 c4 c5 c6 hdata, hxv, hyv, hzv]
  obtain ⟨c1, c2, hxd, hxu, _⟩ := format02X_pair r (Nat.lt_succ_of_le hr)
  obtain ⟨c3, c4, hyd, hyu, _⟩ := format02X_pair g (Nat.lt_succ_of_le hg)
  obtain ⟨c5, c6, hzd, hzu, _⟩ := format02X_pair b (Nat.lt_succ_of_le hb)
  have hdata : (rgb_to_hex (r, g, b)).data = [c1, c2, c3, c4, c5, c6] := by
    rw [rgb_to_hex_data, hxd, hyd, hzd]; rfl
  refine ⟨?_, rgb_to_hex_data r g b, ?_, roundTrip r g b hr hg hb, ?_⟩
  · show (rgb_to_hex (r, g, b)).data.length = 6
    rw [hdata]; rfl
  · rw [hdata]
    simp only [Bool.and_eq_true] at hxu hyu hzu
    simp only [List.all_cons, List.all_nil, Bool.and_true, Bool.and_eq_true]
    exact ⟨hxu.1, hxu.2, hyu.1, hyu.2, hzu.1, hzu.2⟩
  · intro r2 g2 b2 hr2 hg2 hb2 heq
    have h1 := roundTrip r g b hr hg hb
    rw [heq, roundTrip r2 g2 b2 hr2 hg2 hb2] at h1
    exact ⟨(congrArg Prod.fst h1).symm, (congrArg (fun p => p.2.1) h1).symm,
      (congrArg (fun p => p.2.2) h1).symm⟩

/-- Witness for claim C2 at the concrete triple (255, 128, 7). -/
theorem claim_C2_witness :
    (rgb_to_hex (255, 128, 7)).length = 6
    ∧ decodeHex6 (rgb_to_hex (255, 128, 7)) = (255, 128, 7) := by
  have h := claim_C2 255 128 7 (by decide) (by decide) (by decide)
  exact ⟨h.1, h.2.2.2.1⟩

/-! ### The pixel grid extractor -/

theorem visitOrder_mem (width height : Nat) (p : Nat × Nat) :
    p ∈ visitOrder width height ↔ p.1 < width ∧ p.2 < height := by
  cases p with
  | mk x y =>
    simp only [visitOrder, List.mem_flatMap, List.mem_map, List.mem_range]
    constructor
    · rintro ⟨b, hb, a, ha, hax⟩
      cases hax
      exact ⟨ha, hb⟩
    · rintro ⟨hx, hy⟩
      exact ⟨y, hy, x, hx, rfl⟩

theorem visitOrder_nodup (width height : Nat) : (visitOrder width height).Nodup := by
  induction height with
  | zero => exact List.nodup_nil
  | succ h ih =>
    have hsplit : visitOrder width (h + 1)
        = visitOrder width h ++ (List.range width).map (fun x => (x, h)) := by
      rw [visitOrder, List.range_succ, List.flatMap_append]
      simp [visitOrder]
    rw [hsplit]
    refine List.Nodup.append ih ?_ ?_
    · exact (List.nodup_range width).map fun a b hab => congrArg Prod.fst hab
    · intro p hp hq
      have h1 := (visitOrder_mem width h p).mp hp
      obtain ⟨x, _, hx⟩ := List.mem_map.mp hq
      rw [← hx] at h1
      exact absurd h1.2 (lt_irrefl h)

theorem visitOrder_length (width height : Nat) :
    (visitOrder width height).length = width * height := by
  induction height with
  | zero => rfl
  | succ h ih =>
    have hsplit : visitOrder width (h + 1)
        = visitOrder width h ++ (List.range width).map (fun x => (x, h)) := by
      rw [visitOrder, List.range_succ, List.flatMap_append]
      simp [visitOrder]
    rw [hsplit, List.length_append, ih, List.length_map, List.length_range, Nat.mul_succ]

theorem getD_map_range {α : Type} (f : Nat → α) (n i : Nat) (h : i < n) (d : α) :
    ((List.range n).map f).getD i d = f i := by
  simp [List.getD_eq_getElem?_getD, List.getElem?_map, List.getElem?_range h]

/-- Claim C3: `get_pixel_colors` reports the image's own dimensions, returns a
grid with exactly `height` rows of exactly `width` entries, stores the pixel
read at `(x, y)` at grid position `[y][x]`, the flattened grid lists the
pixels exactly in the order of the row-major visit sequence, and that visit
sequence hits every coordinate of the rectangle exactly once (no duplicate
and no missing visit). -/
theorem claim_C3 (image : Image) :
    (get_pixel_colors image).2 = (image.width, image.height)
    ∧ (get_pixel_colors image).1.length = image.height
    ∧ (∀ row ∈ (get_pixel_colors image).1, row.length = image.width)
    ∧ (∀ x y, x < image.width → y < image.height →
        pixAt (get_pixel_colors image).1 y x = image.px x y)
    ∧ (get_pixel_colors image).1.flatten
        = (visitOrder image.width image.height).map (fun p => image.px p.1 p.2)
    ∧ (visitOrder image.width image.height).Nodup
    ∧ (∀ p : Nat × Nat,
        p ∈ visitOrder image.width image.height ↔ p.1 < image.width ∧ p.2 < image.height)
    ∧ (visitOrder image.width image.height).length = image.width * image.height := by
  refine ⟨rfl, by simp [get_pixel_colors], ?_, ?_, ?_, visitOrder_nodup _ _,
    visitOrder_mem _ _, visitOrder_length _ _⟩
  · intro row hrow
    obtain ⟨y, _, hy⟩ := List.mem_map.mp hrow
    rw [← hy, List.length_map, List.length_range]
  · intro x y hx hy
    rw [get_pixel_colors, pixAt]
    rw [getD_map_range _ _ _ hy, getD_map_range _ _ _ hx]
  · show ((List.range image.height).map
        fun y => (List.range image.width).map fun x => image.px x y).flatten = _
    rw [visitOrder, List.map_flatMap]
    rw [show ((List.range image.height).map
        fun y => (List.range image.width).map fun x => image.px x y).flatten
      = (List.range image.height).flatMap fun y =>
          (List.range image.width).map fun x => image.px x y from rfl]
    simp only [List.map_map]
    rfl

/-- Witness for claim C3 on a concrete 2-wide, 3-high image. -/
theorem claim_C3_witness :
    pixAt (get_pixel_colors ⟨2, 3, fun x y => (x, y, 0)⟩).1 2 1 = (1, 2, 0)
    ∧ ((1, 2) ∈ visitOrder 2 3 ↔ 1 < 2 ∧ 2 < 3) := by
  exact ⟨(claim_C3 ⟨2, 3, fun x y => (x, y, 0)⟩).2.2.2.1 1 2 (by decide) (by decide),
    (claim_C3 ⟨2, 3, fun x y => (x, y, 0)⟩).2.2.2.2.2.2.1 (1, 2)⟩

/-! ### Characterization of the two workbook builders -/

theorem cellFillsOf_append_new (fills : List Fill) (cells : List ((Nat × Nat) × Nat))
    (rc : Nat × Nat) (m : Fill) (hok : cellsOK cells fills) :
    cellFillsOf (fills ++ [m]) (cells ++ [(rc, fills.length)])
      = cellFillsOf fills cells ++ [(rc, m)] := by
  rw [cellFillsOf, List.map_append]
  congr 1
  · apply List.map_congr_left
    intro p hp
    rw [getD_append_lt _ _ _ _ (hok p hp)]
  · simp [getD_append_len]

theorem v1_fold_char (l : List ((Nat × Nat) × String)) :
    ∀ fills cells, cellsOK cells fills →
      cellFillsOf (l.foldl v1Step (fills, cells)).1 (l.foldl v1Step (fills, cells)).2
          = cellFillsOf fills cells ++ l.map (fun p => (p.1, mkFill p.2))
        ∧ cellsOK (l.foldl v1Step (fills, cells)).2 (l.foldl v1Step (fills, cells)).1 := by
  induction l with
  | nil => intro fills cells h; exact ⟨by simp, h⟩
  | cons p t ih =>
    intro fills cells h
    rw [List.foldl_cons]
    have hstep : v1Step (fills, cells)
        p = (fills ++ [mkFill p.2], cells ++ [(p.1, fills.length)]) := rfl
    rw [hstep]
    have hok2 : cellsOK (cells ++ [(p.1, fills.length)]) (fills ++ [mkFill p.2]) := by
      intro q hq
      rcases List.mem_append.mp hq with hq | hq
      · exact Nat.lt_of_lt_of_le (h q hq) (by simp)
      · rw [List.mem_singleton] at hq; rw [hq]; simp
    obtain ⟨h1, h2⟩ := ih (fills ++ [mkFill p.2]) (cells ++ [(p.1, fills.length)]) hok2
    refine ⟨?_, h2⟩
    rw [h1, cellFillsOf_append_new fills cells p.1 (mkFill p.2) h, List.append_assoc]
    rfl

theorem v2_fold_char (l : List ((Nat × Nat) × String)) :
    ∀ cache fills cells, cacheOK cache fills → cellsOK cells fills →
      cellFillsOf ((l.foldl v2Step ((cache, fills), cells)).1.2)
          ((l.foldl v2Step ((cache, fills), cells)).2)
          = cellFillsOf fills cells ++ l.map (fun p => (p.1, mkFill p.2))
        ∧ cacheOK (l.foldl v2Step ((cache, fills), cells)).1.1
            (l.foldl v2Step ((cache, fills), cells)).1.2
        ∧ cellsOK (l.foldl v2Step ((cache, fills), cells)).2
            (l.foldl v2Step ((cache, fills), cells)).1.2 := by
  induction l with
  | nil => intro cache fills cells hc hcl; exact ⟨by simp, hc, hcl⟩
  | cons p t ih =>
    intro cache fills cells hc hcl
    rw [List.foldl_cons]
    cases hfind : findStyle cache p.2 with
    | some i =>
      have hstep : v2Step ((cache, fills), cells) p = ((cache, fills), cells ++ [(p.1, i)]) := by
        simp [v2Step, resolveStyle, hfind]
      rw [hstep]
      obtain ⟨hi, hv⟩ := hc p.2 i hfind
      have hok2 : cellsOK (cells ++ [(p.1, i)]) fills := by
        intro q hq
        rcases List.mem_append.mp hq with hq | hq
        · exact hcl q hq
        · rw [List.mem_singleton] at hq; rw [hq]; exact hi
      obtain ⟨h1, h2, h3⟩ := ih cache fills (cells ++ [(p.1, i)]) hc hok2
      refine ⟨?_, h2, h3⟩
      rw [h1]
      have hone : cellFillsOf fills (cells ++ [(p.1, i)])
          = cellFillsOf fills cells ++ [(p.1, mkFill p.2)] := by
        rw [cellFillsOf, List.map_append,
          show (([(p.1, i)]).map fun q => (q.1, fills.getD q.2 (mkFill "")))
            = [(p.1, fills.getD i (mkFill ""))] from rfl, hv]
        rfl
      rw [hone, List.append_assoc]
      rfl
    | none =>
      have hstep : v2Step ((cache, fills), cells)
          p = (((p.2, fills.length) :: cache, fills ++ [mkFill p.2]),
              cells ++ [(p.1, fills.length)]) := by
        simp [v2Step, resolveStyle, hfind]
      rw [hstep]
      have hcache2 : cacheOK ((p.2, fills.length) :: cache) (fills ++ [mkFill p.2]) := by
        intro hex i hfs
        simp only [findStyle] at hfs
        by_cases hk : p.2 = hex
        · subst hk
          rw [if_pos rfl] at hfs
          rcases Option.some.inj hfs with rfl
          exact ⟨by simp, getD_append_len _ _ _⟩
        · rw [if_neg hk] at hfs
          obtain ⟨hi, hv⟩ := hc hex i hfs
          exact ⟨Nat.lt_of_lt_of_le hi (by simp), by rw [getD_append_lt _ _ _ _ hi]; exact hv⟩
      have hok2 : cellsOK (cells ++ [(p.1, fills.length)]) (fills ++ [mkFill p.2]) := by
        intro q hq
        rcases List.mem_append.mp hq with hq | hq
        · exact Nat.lt_of_lt_of_le (hcl q hq) (by simp)
        · rw [List.mem_singleton] at hq; rw [hq]; simp
      obtain ⟨h1, h2, h3⟩ := ih ((p.2, fills.length) :: cache) (fills ++ [mkFill p.2])
        (cells ++ [(p.1, fills.length)]) hcache2 hok2
      refine ⟨?_, h2, h3⟩
      rw [h1, cellFillsOf_append_new fills cells p.1 (mkFill p.2) hcl, List.append_assoc]
      rfl

theorem cellsOK_nil (fills : List Fill) : cellsOK [] fills := by
  intro q hq
  exact absurd hq (List.not_mem_nil q)

theorem cacheOK_nil (fills : List Fill) : cacheOK [] fills := by
  intro hex i h
  exact absurd h (by simp [findStyle])

theorem create_excel_v1_cellFills (pixel_colors : List (List Pixel)) (width height : Nat) :
    cellFills (create_excel_v1 pixel_colors width height)
      = (cellKeys pixel_colors width height).map fun p => (p.1, mkFill p.2) := by
  have h := (v1_fold_char (cellKeys pixel_colors width height) [] [] (cellsOK_nil [])).1
  show cellFillsOf ((cellKeys pixel_colors width height).foldl v1Step ([], [])).1
      ((cellKeys pixel_colors width height).foldl v1Step ([], [])).2 = _
  rw [h]
  rfl

theorem create_excel_v2_cellFills (pixel_colors : List (List Pixel)) (width height : Nat) :
    cellFills (create_excel_v2 pixel_colors width height)
      = (cellKeys pixel_colors width height).map fun p => (p.1, mkFill p.2) := by
  have h := (v2_fold_char (cellKeys pixel_colors width height) [] [] []
    (cacheOK_nil []) (cellsOK_nil [])).1
  show cellFillsOf ((cellKeys pixel_colors width height).foldl v2Step (([], []), [])).1.2
      ((cellKeys pixel_colors width height).foldl v2Step (([], []), [])).2 = _
  rw [h]
  rfl

/-- Claim C6 counterexample: on the 1-pixel grid `[[(0,0,0)]]` the two
variants do not produce the same row-height and column-width settings: the
first variant sets row height 15 and column width 2, the second 12 and 1.5. -/
theorem claim_C6_counterexample :
    ¬(cellFills (create_excel_v1 [[(0, 0, 0)]] 1 1) = cellFills (create_excel_v2 [[(0, 0, 0)]] 1 1)
      ∧ (create_excel_v1 [[(0, 0, 0)]] 1 1).colWidths
          = (create_excel_v2 [[(0, 0, 0)]] 1 1).colWidths
      ∧ (create_excel_v1 [[(0, 0, 0)]] 1 1).rowHeights
          = (create_excel_v2 [[(0, 0, 0)]] 1 1).rowHeights) := by
  intro h
  have h2 : [((1 : Nat), (15 : ℚ))] = [((1 : Nat), (12 : ℚ))] := h.2.2
  have h3 : (15 : ℚ) = 12 := congrArg (fun l => (l.getD 0 (0, 0)).2) h2
  norm_num at h3

/-- Claim C6, amended: for every pixel grid the two variants bind the same
fill color to every cell position (same cell list, same dereferenced fill at
each position), and each applies its sizing uniformly to all rows and
columns, but the numeric settings differ — script.py uses column width 2 and
row height 15 with the default calculation mode, scriptV2 uses column width
1.5 and row height 12 and switches the workbook to manual calculation; the
deduplication of fill objects is the remaining behavioral difference. -/
theorem claim_C6_amended (pixel_colors : List (List Pixel)) (width height : Nat) :
    cellFills (create_excel_v1 pixel_colors width height)
        = cellFills (create_excel_v2 pixel_colors width height)
    ∧ (create_excel_v1 pixel_colors width height).colWidths
        = (List.range width).map (fun c => (c + 1, (2 : ℚ)))
    ∧ (create_excel_v1 pixel_colors width height).rowHeights
        = (List.range height).map (fun r => (r + 1, (15 : ℚ)))
    ∧ (create_excel_v2 pixel_colors width height).colWidths
        = (List.range width).map (fun c => (c + 1, (1.5 : ℚ)))
    ∧ (create_excel_v2 pixel_colors width height).rowHeights
        = (List.range height).map (fun r => (r + 1, (12 : ℚ)))
    ∧ (create_excel_v1 pixel_colors width height).calcManual = false
    ∧ (create_excel_v2 pixel_colors width height).calcManual = true := by
  refine ⟨?_, rfl, rfl, rfl, rfl, rfl, rfl⟩
  rw [create_excel_v1_cellFills, create_excel_v2_cellFills]

/-- Claim C9: each variant binds, for every grid coordinate `(x, y)` in visit
order, the fill of the pixel at grid position `[y][x]` to the document cell
at row `y + 1`, column `x + 1`; in particular a 1x1 image populates exactly
the single cell `(1, 1)`. -/
theorem claim_C9 (pixel_colors : List (List Pixel)) (width height : Nat) :
    cellFills (create_excel_v2 pixel_colors width height)
        = (visitOrder width height).map
            (fun p => ((p.2 + 1, p.1 + 1), mkFill (rgb_to_hex (pixAt pixel_colors p.2 p.1))))
    ∧ cellFills (create_excel_v1 pixel_colors width height)
        = (visitOrder width height).map
            (fun p => ((p.2 + 1, p.1 + 1), mkFill (rgb_to_hex (pixAt pixel_colors p.2 p.1))))
    ∧ (∀ pix : Pixel, (create_excel_v2 [[pix]] 1 1).cells = [((1, 1), 0)]) := by
  refine ⟨?_, ?_, fun pix => rfl⟩
  · rw [create_excel_v2_cellFills, cellKeys, List.map_map]
    rfl
  · rw [create_excel_v1_cellFills, cellKeys, List.map_map]
    rfl

/-- Claim C4: on the 2x2 grid with pixels (255,0,0), (0,255,0), (0,0,255),
(255,0,0) in row-major order, the color keys are FF0000, 00FF00, 0000FF,
FF0000; the deduplicating builder constructs exactly the three distinct fills
FF0000, 00FF00, 0000FF, and binds the identical fill handle 0 to cell (1,1)
and to cell (2,2). -/
theorem claim_C4 :
    ((cellKeys [[(255, 0, 0), (0, 255, 0)], [(0, 0, 255), (255, 0, 0)]] 2 2).map Prod.snd
        = ["FF0000", "00FF00", "0000FF", "FF0000"])
    ∧ (create_excel_v2 [[(255, 0, 0), (0, 255, 0)], [(0, 0, 255), (255, 0, 0)]] 2 2).fills
        = [mkFill "FF0000", mkFill "00FF00", mkFill "0000FF"]
    ∧ (create_excel_v2 [[(255, 0, 0), (0, 255, 0)], [(0, 0, 255), (255, 0, 0)]] 2 2).fills.length
        = 3
    ∧ (create_excel_v2 [[(255, 0, 0), (0, 255, 0)], [(0, 0, 255), (255, 0, 0)]] 2 2).cells
        = [((1, 1), 0), ((1, 2), 1), ((2, 1), 2), ((2, 2), 0)] := by
  decide

/-! ### The drivers -/

theorem finishRun_events (wb : Workbook) (evs : List Event) (saveOk : Bool) :
    (finishRun wb evs saveOk).events = evs ++ [Event.save] := by
  cases saveOk <;> rfl

theorem finishRun_outcome (wb : Workbook) (evs : List Event) (saveOk : Bool) :
    (finishRun wb evs saveOk).outcome
      = (if saveOk = true then Outcome.ok else Outcome.saveFailed) := by
  cases saveOk <;> rfl

theorem finishRun_saved (wb : Workbook) (evs : List Event) (saveOk : Bool) :
    (finishRun wb evs saveOk).saved? = (if saveOk = true then some wb else none) := by
  cases saveOk <;> rfl

/-- Claim C5: with an existing, validly named input, the size-guard prompt
appears in the trace of either driver exactly when the pixel count strictly
exceeds 10000; at or below the threshold the run proceeds directly from
extraction to saving with no prompt. -/
theorem claim_C5 :
    (∀ (image_path : String) (image : Image) (response : String) (saveOk : Bool),
        validExtensionCheck image_path = true →
        (Event.prompt ∈ (image_to_excel_v1 true image_path (some image) response saveOk).events
          ↔ 10000 < image.width * image.height))
    ∧ (∀ (image_path : String) (image : Image) (quant : Image → Image) (response : String)
          (saveOk : Bool),
        validExtensionCheck image_path = true →
        (Event.prompt
            ∈ (image_to_excel_v2 true image_path (some image) quant response saveOk).events
          ↔ 10000 < image.width * image.height))
    ∧ (∀ (image_path : String) (image : Image) (response : String) (saveOk : Bool),
        validExtensionCheck image_path = true → ¬10000 < image.width * image.height →
        (image_to_excel_v1 true image_path (some image) response saveOk).events
          = [Event.load, Event.extract, Event.save])
    ∧ (∀ (image_path : String) (image : Image) (quant : Image → Image) (response : String)
          (saveOk : Bool),
        validExtensionCheck image_path = true → ¬10000 < image.width * image.height →
        (image_to_excel_v2 true image_path (some image) quant response saveOk).events
          = [Event.load, Event.extract, Event.save]) := by
  refine ⟨?_, ?_, ?_, ?_⟩
  · intro image_path image response saveOk hext
    by_cases hbig : 10000 < image.width * image.height
    · by_cases hs : lowerStr response = "s"
      · simp [image_to_excel_v1, hext, hbig, hs, finishRun_events, get_pixel_colors]
      · simp [image_to_excel_v1, hext, hbig, hs, get_pixel_colors]
    · simp [image_to_excel_v1, hext, hbig, finishRun_events, get_pixel_colors]
  · intro image_path image quant response saveOk hext
    by_cases hbig : 10000 < image.width * image.height
    · by_cases h1 : stripStr response = "1"
      · simp [image_to_excel_v2, hext, hbig, h1, finishRun_events]
      · by_cases h3 : stripStr response = "3"
        · simp [image_to_excel_v2, hext, hbig, h1, h3]
        · simp [image_to_excel_v2, hext, hbig, h1, h3, finishRun_events]
    · simp [image_to_excel_v2, hext, hbig, finishRun_events, get_pixel_colors]
  · intro image_path image response saveOk hext hbig
    simp [image_to_excel_v1, hext, hbig, finishRun_events, get_pixel_colors]
  · intro image_path image quant response saveOk hext hbig
    simp [image_to_excel_v2, hext, hbig, finishRun_events, get_pixel_colors]

/-- Witness for claim C5: a 100x100 image (exactly 10000 pixels) is not
prompted, a 10001x1 image is. -/
theorem claim_C5_witness :
    Event.prompt
        ∉ (image_to_excel_v1 true "a.png" (some ⟨100, 100, fun _ _ => (0, 0, 0)⟩) "s" true).events
    ∧ Event.prompt
        ∈ (image_to_excel_v1 true "a.png" (some ⟨10001, 1, fun _ _ => (0, 0, 0)⟩) "n" true).events := by
  constructor
  · intro hmem
    have h := (claim_C5.1 "a.png" ⟨100, 100, fun _ _ => (0, 0, 0)⟩ "s" true (by decide)).mp hmem
    exact absurd h (by decide)
  · exact (claim_C5.1 "a.png" ⟨10001, 1, fun _ _ => (0, 0, 0)⟩ "n" true (by decide)).mpr (by decide)

/-- Claim C7 counterexample: in script.py, on a 101x100 image (above the
threshold) with a declining response, extraction is performed before the
size-guard prompt: the trace is load, extract, prompt, with extract strictly
preceding prompt. -/
theorem claim_C7_counterexample :
    (image_to_excel_v1 true "big.png" (some ⟨101, 100, fun _ _ => (0, 0, 0)⟩) "n" true).events
        = [Event.load, Event.extract, Event.prompt]
    ∧ [Event.load, Event.extract, Event.prompt].indexOf Event.extract
        < [Event.load, Event.extract, Event.prompt].indexOf Event.prompt := by
  decide

/-- Claim C7, amended: in the scriptV2 variant the size-guard prompt does
precede any extraction work, and cancelling there aborts with no output and
no extraction; in the script.py variant extraction is performed before the
prompt, but cancellation there still returns failure with no output file. -/
theorem claim_C7_amended :
    (∀ (image_path : String) (image : Image) (quant : Image → Image) (response : String)
        (saveOk : Bool),
      validExtensionCheck image_path = true → 10000 < image.width * image.height →
        ((image_to_excel_v2 true image_path (some image) quant response saveOk).events.indexOf
            Event.prompt
          < (image_to_excel_v2 true image_path (some image) quant response saveOk).events.indexOf
            Event.extract)
        ∧ (stripStr response = "3" →
            image_to_excel_v2 true image_path (some image) quant response saveOk
              = ⟨false, Outcome.cancelled, [Event.load, Event.prompt], false, none⟩))
    ∧ (∀ (image_path : String) (image : Image) (response : String) (saveOk : Bool),
      validExtensionCheck image_path = true → 10000 < image.width * image.height →
        ((image_to_excel_v1 true image_path (some image) response saveOk).events.indexOf
            Event.extract
          < (image_to_excel_v1 true image_path (some image) response saveOk).events.indexOf
            Event.prompt)
        ∧ (lowerStr response ≠ "s" →
            image_to_excel_v1 true image_path (some image) response saveOk
              = ⟨false, Outcome.cancelled, [Event.load, Event.extract, Event.prompt], false,
                  none⟩)) := by
  constructor
  · intro image_path image quant response saveOk hext hbig
    constructor
    · by_cases h1 : stripStr response = "1"
      · rw [show (image_to_excel_v2 true image_path (some image) quant response saveOk).events
            = [Event.load, Event.prompt, Event.quantize, Event.extract] ++ [Event.save] from by
          simp [image_to_excel_v2, hext, hbig, h1, finishRun_events]]
        decide
      · by_cases h3 : stripStr response = "3"
        · rw [show (image_to_excel_v2 true image_path (some image) quant response saveOk).events
              = [Event.load, Event.prompt] from by simp [image_to_excel_v2, hext, hbig, h1, h3]]
          decide
        · rw [show (image_to_excel_v2 true image_path (some image) quant response saveOk).events
              = [Event.load, Event.prompt, Event.extract] ++ [Event.save] from by
            simp [image_to_excel_v2, hext, hbig, h1, h3, finishRun_events]]
          decide
    · intro h3
      have h1 : ¬stripStr response = "1" := by rw [h3]; decide
      simp [image_to_excel_v2, hext, hbig, h1, h3]
  · intro image_path image response saveOk hext hbig
    constructor
    · by_cases hs : lowerStr response = "s"
      · rw [show (image_to_excel_v1 true image_path (some image) response saveOk).events
            = [Event.load, Event.extract, Event.prompt] ++ [Event.save] from by
          simp [image_to_excel_v1, hext, hbig, hs, finishRun_events, get_pixel_colors]]
        decide
      · rw [show (image_to_excel_v1 true image_path (some image) response saveOk).events
            = [Event.load, Event.extract, Event.prompt] from by
          simp [image_to_excel_v1, hext, hbig, hs, get_pixel_colors]]
        decide
    · intro hs
      simp [image_to_excel_v1, hext, hbig, hs, get_pixel_colors]

/-- Witness for claim C7 (amended) on a concrete 101x100 image with the
cancelling response. -/
theorem claim_C7_witness :
    ((image_to_excel_v2 true "a.png" (some ⟨101, 100, fun _ _ => (0, 0, 0)⟩) id "3"
          true).events.indexOf Event.prompt
      < (image_to_excel_v2 true "a.png" (some ⟨101, 100, fun _ _ => (0, 0, 0)⟩) id "3"
          true).events.indexOf Event.extract)
    ∧ image_to_excel_v2 true "a.png" (some ⟨101, 100, fun _ _ => (0, 0, 0)⟩) id "3" true
        = ⟨false, Outcome.cancelled, [Event.load, Event.prompt], false, none⟩ := by
  have h := claim_C7_amended.1 "a.png" ⟨101, 100, fun _ _ => (0, 0, 0)⟩ id "3" true
    (by decide) (by decide)
  exact ⟨h.1, h.2 (by decide)⟩

/-- Claim C8: each driver returns the normal failure value (a total function
returning `false`, never an exception) and produces no output file when the
path does not exist (nothing is loaded), when the extension check fails
(nothing is loaded), when the decode collaborator fails, and when the user
cancels at the size guard (reported as a cancellation outcome, distinct from
the error outcomes). -/
theorem claim_C8 :
    (∀ (image_path : String) (decoded : Option Image) (response : String) (saveOk : Bool),
        image_to_excel_v1 false image_path decoded response saveOk
          = ⟨false, Outcome.notFound, [], false, none⟩)
    ∧ (∀ (image_path : String) (decoded : Option Image) (response : String) (saveOk : Bool),
        validExtensionCheck image_path = false →
        image_to_excel_v1 true image_path decoded response saveOk
          = ⟨false, Outcome.badExtension, [], false, none⟩)
    ∧ (∀ (image_path : String) (response : String) (saveOk : Bool),
        validExtensionCheck image_path = true →
        image_to_excel_v1 true image_path none response saveOk
          = ⟨false, Outcome.loadFailed, [Event.load], false, none⟩)
    ∧ (∀ (image_path : String) (image : Image) (response : String) (saveOk : Bool),
        validExtensionCheck image_path = true → 10000 < image.width * image.height →
        lowerStr response ≠ "s" →
        image_to_excel_v1 true image_path (some image) response saveOk
          = ⟨false, Outcome.cancelled, [Event.load, Event.extract, Event.prompt], false, none⟩)
    ∧ (∀ (image_path : String) (decoded : Option Image) (quant : Image → Image)
          (response : String) (saveOk : Bool),
        image_to_excel_v2 false image_path decoded quant response saveOk
          = ⟨false, Outcome.notFound, [], false, none⟩)
    ∧ (∀ (image_path : String) (decoded : Option Image) (quant : Image → Image)
          (response : String) (saveOk : Bool),
        validExtensionCheck image_path = false →
        image_to_excel_v2 true image_path decoded quant response saveOk
          = ⟨false, Outcome.badExtension, [], false, none⟩)
    ∧ (∀ (image_path : String) (quant : Image → Image) (response : String) (saveOk : Bool),
        validExtensionCheck image_path = true →
        image_to_excel_v2 true image_path none quant response saveOk
          = ⟨false, Outcome.loadFailed, [Event.load], false, none⟩)
    ∧ (∀ (image_path : String) (image : Image) (quant : Image → Image) (response : String)
          (saveOk : Bool),
        validExtensionCheck image_path = true → 10000 < image.width * image.height →
        stripStr response = "3" →
        image_to_excel_v2 true image_path (some image) quant response saveOk
          = ⟨false, Outcome.cancelled, [Event.load, Event.prompt], false, none⟩) := by
  refine ⟨?_, ?_, ?_, ?_, ?_, ?_, ?_, ?_⟩
  · intro image_path decoded response saveOk
    rfl
  · intro image_path decoded response saveOk hext
    simp [image_to_excel_v1, hext]
  · intro image_path response saveOk hext
    simp [image_to_excel_v1, hext]
  · intro image_path image response saveOk hext hbig hs
    simp [image_to_excel_v1, hext, hbig, hs, get_pixel_colors]
  · intro image_path decoded quant response saveOk
    rfl
  · intro image_path decoded quant response saveOk hext
    simp [image_to_excel_v2, hext]
  · intro image_path quant response saveOk hext
    simp [image_to_excel_v2, hext]
  · intro image_path image quant response saveOk hext hbig h3
    have h1 : ¬stripStr response = "1" := by rw [h3]; decide
    simp [image_to_excel_v2, hext, hbig, h1, h3]

/-- Witness for claim C8: the four failure cases at concrete inputs. -/
theorem claim_C8_witness :
    image_to_excel_v1 false "missing.png" none "" true
        = ⟨false, Outcome.notFound, [], false, none⟩
    ∧ image_to_excel_v1 true "photo.gif" none "" true
        = ⟨false, Outcome.badExtension, [], false, none⟩
    ∧ image_to_excel_v2 true "a.png" none id "" true
        = ⟨false, Outcome.loadFailed, [Event.load], false, none⟩
    ∧ image_to_excel_v2 true "a.png" (some ⟨101, 100, fun _ _ => (0, 0, 0)⟩) id "3" true
        = ⟨false, Outcome.cancelled, [Event.load, Event.prompt], false, none⟩ := by
  refine ⟨claim_C8.1 "missing.png" none "" true,
    claim_C8.2.1 "photo.gif" none "" true (by decide),
    claim_C8.2.2.2.2.2.2.1 "a.png" id "" true (by decide),
    claim_C8.2.2.2.2.2.2.2 "a.png" ⟨101, 100, fun _ _ => (0, 0, 0)⟩ id "3" true (by decide)
      (by decide) (by decide)⟩

/-- Claim C10 counterexample: the response string " 3" (with a leading
space) is not exactly "3", yet scriptV2's guard cancels the conversion on
it, because the response is stripped before the comparison. -/
theorem claim_C10_counterexample :
    (" 3" : String) ≠ "3"
    ∧ (image_to_excel_v2 true "big.png" (some ⟨101, 100, fun _ _ => (0, 0, 0)⟩) id " 3"
          true).outcome = Outcome.cancelled := by
  decide

/-- Claim C10, amended: at scriptV2's three-way size-guard prompt, every
response whose whitespace-stripped form is neither "1" nor "3" — including
the empty string and any invalid input — causes the conversion to proceed
unchanged on the full-color image (no quantization, no cancellation, the
original image is extracted and saved); a response stripping to "3" cancels
and one stripping to "1" quantizes first. -/
theorem claim_C10_amended (image_path : String) (image : Image) (quant : Image → Image)
    (response : String) (saveOk : Bool)
    (hext : validExtensionCheck image_path = true)
    (hbig : 10000 < image.width * image.height)
    (h1 : stripStr response ≠ "1") (h3 : stripStr response ≠ "3") :
    (image_to_excel_v2 true image_path (some image) quant response saveOk).events
        = [Event.load, Event.prompt, Event.extract, Event.save]
    ∧ Event.quantize
        ∉ (image_to_excel_v2 true image_path (some image) quant response saveOk).events
    ∧ (image_to_excel_v2 true image_path (some image) quant response saveOk).outcome
        ≠ Outcome.cancelled
    ∧ (image_to_excel_v2 true image_path (some image) quant response saveOk).saved?
        = (if saveOk = true
            then some (create_excel_v2 (get_pixel_colors image).1 (get_pixel_colors image).2.1
                (get_pixel_colors image).2.2)
            else none) := by
  have hev : (image_to_excel_v2 true image_path (some image) quant response saveOk).events
      = [Event.load, Event.prompt, Event.extract] ++ [Event.save] := by
    simp [image_to_excel_v2, hext, hbig, h1, h3, finishRun_events]
  refine ⟨hev, ?_, ?_, ?_⟩
  · rw [hev]; decide
  · rw [show (image_to_excel_v2 true image_path (some image) quant response saveOk).outcome
        = (if saveOk = true then Outcome.ok else Outcome.saveFailed) from by
      simp [image_to_excel_v2, hext, hbig, h1, h3, finishRun_outcome]]
    cases saveOk <;> decide
  · simp [image_to_excel_v2, hext, hbig, h1, h3, finishRun_saved]

/-- Witness for claim C10 (amended) with the invalid response "x". -/
theorem claim_C10_witness :
    (image_to_excel_v2 true "a.png" (some ⟨101, 100, fun _ _ => (0, 0, 0)⟩) id "x" false).events
        = [Event.load, Event.prompt, Event.extract, Event.save]
    ∧ (image_to_excel_v2 true "a.png" (some ⟨101, 100, fun _ _ => (0, 0, 0)⟩) id "x"
          false).outcome ≠ Outcome.cancelled := by
  have h := claim_C10_amended "a.png" ⟨101, 100, fun _ _ => (0, 0, 0)⟩ id "x" false
    (by decide) (by decide) (by decide) (by decide)
  exact ⟨h.1, h.2.2.1⟩

end ExcelArt
